import Mathlib

/-!
Shallow embedding of the control core of `tms-robot-control`
(`src/robot/control/robot_control.py`, `src/robot/control/robot_state_controller.py`,
`src/robot/robots/elfin/elfin.py`), together with theorems settling the
specification claims about it.

Machine floats are modelled as exact rationals (`ℚ`) wherever the code only
moves, compares and negates them; the real-valued matrix algebra of the
coil-to-robot alignment is modelled over `ℝ`.  Python `None` becomes `Option`,
Python truthiness of `None`/`bool` values is made explicit.  Side effects
(stopping the robot, resetting the movement algorithm, sending messages) are
recorded as explicit flags in the returned values.
-/

namespace TmsRobot

/-- `RobotState` from `src/robot/control/robot_state_controller.py`. -/
inductive RobotState where
  | READY
  | START_MOVING
  | MOVING
  | WAITING
  | STOPPING
  deriving DecidableEq, Repr

/-- `RobotObjective` from `src/robot/control/robot_control.py`. -/
inductive RobotObjective where
  | NONE
  | TRACK_TARGET
  | MOVE_AWAY_FROM_HEAD
  deriving DecidableEq, Repr

/-! ## Robot state controller (`robot_state_controller.py`) -/

/-- The mutable fields of `RobotStateController`.  `dwell_time` and the wall
clock are modelled as exact rationals.  `waiting_start_time` is set before it
is ever read (it is assigned whenever the state becomes `WAITING`), so it is
kept as a plain rational initialised arbitrarily. -/
structure StateController where
  dwell_time : ℚ
  state : RobotState
  not_moving_counter : ℕ
  waiting_start_time : ℚ
  deriving DecidableEq, Repr

namespace StateController

/-- `RobotStateController.update`.  The source calls `self.robot.is_moving()`
at three distinct points and `time.time()` at two distinct points; each call is
modelled by its own parameter (`moving1` for the `START_MOVING` check,
`moving2` for the `MOVING` check, `moving3` for the `STOPPING` check, `now1`
for the assignment of `waiting_start_time`, `now2` for the dwell computation).
The `print` logging is omitted: it does not affect the state. -/
def update (s : StateController) (moving1 moving2 moving3 : Bool)
    (now1 now2 : ℚ) : StateController :=
  -- Check if the robot is starting to move
  let (state, not_moving_counter, stopped_moving) :=
    if s.state = RobotState.START_MOVING then
      if moving1 then
        (RobotState.MOVING, s.not_moving_counter, false)
      else
        let c := s.not_moving_counter + 1
        (RobotState.START_MOVING, c, decide (c > 10))
    else
      (s.state, s.not_moving_counter, false)
  -- Check if the robot was previously detected to be moving but is not moving anymore.
  let stopped_moving := stopped_moving || (state = RobotState.MOVING && !moving2)
  -- If the robot has stopped moving, change the state to WAITING.
  let (state, waiting_start_time) :=
    if stopped_moving then (RobotState.WAITING, now1)
    else (state, s.waiting_start_time)
  -- If we are in WAITING, check if we have waited long enough.
  let state :=
    if state = RobotState.WAITING then
      if s.dwell_time - (now2 - waiting_start_time) ≤ 0 then RobotState.READY
      else RobotState.WAITING
    else state
  -- If we are in STOPPING, check if we should go back to READY.
  let state :=
    if state = RobotState.STOPPING && !moving3 then RobotState.READY
    else state
  { s with
    state := state
    not_moving_counter := not_moving_counter
    waiting_start_time := waiting_start_time }

/-- `RobotStateController.set_state_to_start_moving`.  `if not self.dwell_time`
is Python float truthiness: the method is a no-op exactly when
`dwell_time == 0`. -/
def set_state_to_start_moving (s : StateController) : StateController :=
  if s.dwell_time = 0 then s
  else { s with state := RobotState.START_MOVING, not_moving_counter := 0 }

/-- `RobotStateController.set_state_to_stopping`. -/
def set_state_to_stopping (s : StateController) : StateController :=
  { s with state := RobotState.STOPPING }

end StateController

/-- The claim of C3, quantified over the three operations: an operation on the
state controller, with the inputs `update` takes. -/
inductive StateOp where
  | update (moving1 moving2 moving3 : Bool) (now1 : ℚ)
  | set_state_to_start_moving
  | set_state_to_stopping
  deriving DecidableEq, Repr

/-- Apply a `StateOp` at wall-clock time `now`. -/
def StateOp.apply (op : StateOp) (now : ℚ) (s : StateController) : StateController :=
  match op with
  | .update m1 m2 m3 now1 => s.update m1 m2 m3 now1 now
  | .set_state_to_start_moving => s.set_state_to_start_moving
  | .set_state_to_stopping => s.set_state_to_stopping

/-- C3 counterexample state: in `WAITING` with `dwell_time = 1` and
`waiting_start_time = 0`, observed at time `now = 0` (no time has elapsed). -/
def c3State : StateController :=
  { dwell_time := 1, state := RobotState.WAITING,
    not_moving_counter := 0, waiting_start_time := 0 }

/-! ## Stopping the robot (`RobotControl.stop_robot` and `Elfin.stop_robot`) -/

/-- Python truthiness of an `Option Bool` value: `None` is falsy, a `bool` is
itself.  This is the meaning of `if success:` in `RobotControl.stop_robot`
when the driver-level `stop_robot` may return `None`. -/
def pyTruthy : Option Bool → Bool
  | none => false
  | some b => b

/-- The observable behaviour of one driver-level `stop_robot()` call: how long
it sleeps (seconds, exact rational) and its Python return value, with `none`
modelling Python `None` (a function body that falls off the end without a
`return` statement). -/
structure DriverStopResult where
  sleep_seconds : ℚ
  retval : Option Bool
  deriving DecidableEq, Repr

/-- `Elfin.stop_robot` from `src/robot/robots/elfin/elfin.py`: it issues the
connection-level stop command, sleeps `0.05` s ("wait here to guarantee the
stopping"), and then falls off the end of the function body — so in Python it
returns `None`, not a boolean. -/
def Elfin.stop_robot : DriverStopResult :=
  { sleep_seconds := 0.05, retval := none }

/-- Result of `RobotControl.stop_robot`: the state controller afterwards and
the value returned to the caller (`Option Bool` because the driver may return
`None`). -/
structure StopRobotOutcome where
  state_controller : StateController
  returned : Option Bool
  deriving DecidableEq, Repr

/-- `RobotControl.stop_robot` from `src/robot/control/robot_control.py`:

    success = self.robot.stop_robot()
    if success:
        self.robot_state_controller.set_state_to_stopping()
    else:
        print("Error: Could not stop the robot")
    return success

`driver_stop` is the behaviour of the configured driver's `stop_robot`. -/
def RobotControl.stop_robot (driver_stop : DriverStopResult)
    (sc : StateController) : StopRobotOutcome :=
  let success := driver_stop.retval
  { state_controller :=
      if pyTruthy success then sc.set_state_to_stopping else sc
    returned := success }

/-- A concrete state controller in `READY` used to evaluate C1. -/
def c1ReadyController : StateController :=
  { dwell_time := 1, state := RobotState.READY,
    not_moving_counter := 0, waiting_start_time := 0 }

/-! ## Warning propagation (`RobotControl.send_warning_to_neuronavigation`) -/

/-- The fields of `RobotControl` that `send_warning_to_neuronavigation` reads
and writes: whether a remote-control sink is attached, and the stored
`last_warning` string. -/
structure WarningSink where
  remote_control : Bool
  last_warning : String
  deriving DecidableEq, Repr

/-- `RobotControl.send_warning_to_neuronavigation`:

    if self.remote_control and self.last_warning != "":
        ... send_message(topic, {"robot_warning": warning})
    self.last_warning = warning

Returns the updated sink state and the message sent (if any). -/
def send_warning_to_neuronavigation (s : WarningSink) (warning : String) :
    WarningSink × Option String :=
  let sent :=
    if s.remote_control ∧ s.last_warning ≠ "" then some warning else none
  ({ s with last_warning := warning }, sent)

/-! ## Safe height (`RobotControl.set_safe_height`) -/

/-- `RobotControl.set_safe_height`:

    head_pose_in_robot_space[2] + 150  # 15 cm above the head
    max_safe_height = self.safe_height_defined_by_user
    robot_pose_z = self.robot_pose_storage.GetRobotPose()[2]
    if robot_pose_z is None: return max_safe_height
    if robot_pose_z < max_safe_height: move_to_height = max_safe_height
    else: move_to_height = robot_pose_z
    return move_to_height

The first line computes `head_z + 150` and discards the value (a bare
expression statement).  `robot_pose_z` is `Option` because the stored pose
entry may be `None`. -/
def set_safe_height (safe_height_defined_by_user : ℚ) (head_pose_z : ℚ)
    (robot_pose_z : Option ℚ) : ℚ :=
  let _discarded := head_pose_z + 150  -- 15 cm above the head; never used
  let max_safe_height := safe_height_defined_by_user
  match robot_pose_z with
  | none => max_safe_height
  | some z => if z < max_safe_height then max_safe_height else z

/-! ## Calibration estimation (`RobotControl.on_robot_matrix_estimation`) -/

/-- `numpy.linalg.LinAlgError`, raised when the linear system being solved is
singular. -/
inductive LinAlgError where
  | singular
  deriving DecidableEq, Repr

/-- The matrix triple `(X_est, Y_est, affine_matrix_tracker_to_robot)`.  Its
entries are opaque to the handler under verification; rational matrices stand
in for the numeric arrays. -/
def MatrixTriple : Type :=
  List (List ℚ) × List (List ℚ) × List (List ℚ)

instance : DecidableEq MatrixTriple := by
  unfold MatrixTriple; infer_instance

/-- The fields of `RobotControl` written by `on_robot_matrix_estimation`:
`self.matrix_tracker_to_robot` and the tracker's tracker-to-robot matrix
(set via `self.tracker.SetTrackerToRobotMatrix`).  Both are `Option` — before
any estimation they hold no triple. -/
structure CalibState where
  matrix_tracker_to_robot : Option MatrixTriple
  tracker_m_tracker_to_robot : Option MatrixTriple
  deriving DecidableEq

/-- Result of `on_robot_matrix_estimation`: the state afterwards, whether the
recoverable error was reported (the two `print`s in the `except` clause) and
whether the new matrix was published to neuronavigation. -/
structure CalibOutcome where
  state : CalibState
  error_reported : Bool
  matrix_published : Bool
  deriving DecidableEq

/-- `RobotControl.on_robot_matrix_estimation`.  The whole estimation pipeline
inside the `try` block — `robot_process.AffineTransformation`,
`tr.inverse_matrix`, `robot_process.Transformation_matrix.matrices_estimation`
(modules not under `src/`) — is modelled by the parameter `est`:
`Except.error` models `np.linalg.LinAlgError` raised inside the `try` block,
which in the source happens before either assignment statement runs;
`Except.ok` models the successfully computed triple.  On error the handler
prints and returns; on success it stores the triple in both places and
publishes it. -/
def on_robot_matrix_estimation (est : Except LinAlgError MatrixTriple)
    (s : CalibState) : CalibOutcome :=
  match est with
  | .error _ =>
      -- except np.linalg.LinAlgError: print(...); print(...)
      { state := s, error_reported := true, matrix_published := false }
  | .ok triple =>
      { state := { matrix_tracker_to_robot := some triple,
                   tracker_m_tracker_to_robot := some triple }
        error_reported := false
        matrix_published := true }

/-! ## Target setting (`RobotControl.on_set_target`) -/

/-- The fields of `RobotControl` that `on_set_target` reads or writes. -/
structure TargetState where
  robot : Option Unit        -- `self.robot`; `none` models Python `None`
  target_set : Bool
  m_target_to_head : Option (List (List ℚ))
  deriving DecidableEq

/-- The side effects `on_set_target` can perform besides field writes. -/
structure TargetActions where
  algorithm_reset : Bool     -- `self.movement_algorithm.reset_state()`
  pid_cleared : Bool         -- `self.pid_group.clear()`
  deriving DecidableEq, Repr

/-- `RobotControl.on_set_target`:

    if not self.robot:
        print("ERROR: Attempting to set target, but robot not initialized.")
        return
    self.target_set = True
    ...
    self.m_target_to_head = self.process_tracker.compute_transformation_target_to_head(...)
    self.movement_algorithm.reset_state()
    if self.config.get("movement_algorithm") == "directly_PID":
        self.pid_group.clear()

`compute_transformation_target_to_head` lives in `robot_processing` (not under
`src/`); its result is the parameter `computed`.  `directly_PID` reflects the
configured movement algorithm. -/
def on_set_target (computed : Option (List (List ℚ))) (directly_PID : Bool)
    (s : TargetState) : TargetState × TargetActions :=
  if s.robot = none then
    (s, { algorithm_reset := false, pid_cleared := false })
  else
    ({ s with target_set := true, m_target_to_head := computed },
     { algorithm_reset := true, pid_cleared := directly_PID })

/-! ## Track-target guard cascade (`RobotControl.handle_objective_track_target`) -/

/-- A 6-component pose / displacement as the source's list of floats. -/
abbrev Pose := List ℚ

/-- Configuration read by `handle_objective_track_target`. -/
structure TrackConfig where
  stop_robot_if_head_not_visible : Bool   -- config
  working_space_radius : ℚ                -- robot_config
  tuning_interval : Option ℚ              -- config; `None` disables tuning
  use_pressure_sensor : Bool              -- config
  deriving DecidableEq, Repr

/-- Per-tick answers of the collaborators `handle_objective_track_target`
consults whose code is not under `src/` (tracker processing, force sensor,
movement algorithm, robot driver): each call site is one field. -/
structure TrackInputs where
  head_visible : Bool             -- self.tracker.head_visible
  coil_visible : Bool             -- self.tracker.coil_visible
  is_head_moving_too_fast : Bool  -- self.process_tracker.is_head_moving_too_fast(...)
  force_sensor_present : Bool     -- whether self.force_sensor is not None
  is_force_near_setpoint : Bool   -- self.force_sensor.is_force_near_setpoint(...)
  move_decision_success : Bool    -- success from movement_algorithm.move_decision
  robot_is_error_state : Bool     -- self.robot.is_error_state()
  pressure_sensor_ready : Bool    -- self.force_sensor.ready
  deriving DecidableEq, Repr

/-- The fields of `RobotControl` read or written by
`handle_objective_track_target`.  `m_tracker_to_robot` is only tested against
`None` in this handler, so only its presence is modelled. -/
structure TrackState where
  target_set : Bool
  head_center : Option Pose
  head_pose_in_robot_space : Option Pose
  m_tracker_to_robot : Option Unit
  target_pose_from_displacement : Option Pose  -- target_pose_in_robot_space_estimated_from_displacement
  robot_state : RobotState                     -- self.robot_state_controller.get_state()
  last_tuning_time : ℚ
  target_reached : Bool
  displacement_to_target : Option Pose
  last_displacement_update_time : ℚ
  deriving DecidableEq, Repr

/-- The result of one `handle_objective_track_target` call: the returned
`(success, warning)` pair, the side effects performed, and the fields written.
For the "head too far" warning the source appends the formatted distance
(`"... Distance: {:.2f}"`); the numeric suffix is elided here, no claim
inspects it. -/
structure TrackResult where
  success : Bool
  warning : String
  stop_robot_called : Bool               -- self.stop_robot()
  algorithm_reset : Bool                 -- self.movement_algorithm.reset_state()
  move_decision_called : Bool            -- self.movement_algorithm.move_decision(...)
  set_state_to_start_moving_called : Bool
  displacement_to_target : Option Pose   -- field value after the call
  last_tuning_time : ℚ                   -- field value after the call
  deriving DecidableEq, Repr

/-- A guard-cascade exit that performs no side effect and leaves the written
fields as they are in `s`. -/
def TrackResult.pass (s : TrackState) (success : Bool) (warning : String) :
    TrackResult :=
  { success := success
    warning := warning
    stop_robot_called := false
    algorithm_reset := false
    move_decision_called := false
    set_state_to_start_moving_called := false
    displacement_to_target := s.displacement_to_target
    last_tuning_time := s.last_tuning_time }

/-- Exact rational rephrasing of
`np.linalg.norm(target[:3]) >= working_space_radius`:
the Euclidean norm is nonnegative, so for `r ≤ 0` the comparison is always
true, and for `r > 0` it holds iff `x² + y² + z² ≥ r²`. -/
def norm3_ge (v : Pose) (r : ℚ) : Bool :=
  decide (r ≤ 0) ||
    decide (r ^ 2 ≤ (v.getD 0 0) ^ 2 + (v.getD 1 0) ^ 2 + (v.getD 2 0) ^ 2)

/-- `is_time_to_tune` as computed in the source:
`tuning_interval is not None` and `last_tuning_time is not None` (the latter is
always true — the field is initialised to `time.time()` in the constructor and
never set to `None`) and `time.time() - last_tuning_time > tuning_interval`. -/
def is_time_to_tune (cfg : TrackConfig) (s : TrackState) (now : ℚ) : Bool :=
  match cfg.tuning_interval with
  | some ti => decide (now - s.last_tuning_time > ti)
  | none => false

/-- `force_ok` as computed in the source: `self.force_sensor is None or
self.force_sensor.is_force_near_setpoint(...)`. -/
def force_ok (inp : TrackInputs) : Bool :=
  !inp.force_sensor_present || inp.is_force_near_setpoint

/-- `RobotControl.handle_objective_track_target`, guard by guard in source
order.  `now_tune_check`, `now_tune_set` and `now_fresh` model the three
`time.time()` calls inside the function (for the tuning-interval check, the
`last_tuning_time` assignment, and the displacement-freshness check). -/
def handle_objective_track_target (cfg : TrackConfig) (inp : TrackInputs)
    (s : TrackState) (now_tune_check now_tune_set now_fresh : ℚ) :
    TrackResult :=
  -- If target has not been received, return early.
  if !s.target_set then .pass s false ""
  -- Check that the state variables are available.
  else if s.head_center = none then .pass s false ""
  else if s.head_pose_in_robot_space = none then .pass s false ""
  else if s.m_tracker_to_robot = none then .pass s false ""
  -- Check if head is visible.
  else if (s.head_pose_in_robot_space = none ∨ ¬inp.head_visible ∨ ¬inp.coil_visible)
      ∧ cfg.stop_robot_if_head_not_visible then
    { TrackResult.pass s true "Warning: Head or coil marker is not visible" with
      stop_robot_called := true, algorithm_reset := true }
  -- (when a marker is invisible but stopping is not configured, the source
  -- only prints and falls through)
  -- Check that the head is not moving too fast.
  else if inp.is_head_moving_too_fast then
    { TrackResult.pass s true "Warning: Head is moving too fast" with
      stop_robot_called := true, algorithm_reset := true }
  else
    -- Check if the target is outside the working space.
    match s.target_pose_from_displacement with
    | none => .pass s true ""
    | some target =>
      if norm3_ge target cfg.working_space_radius then
        .pass s true "Warning: Head is too far from the robot basis. Distance: "
      -- Check if the robot is ready to move.
      else if s.robot_state ≠ RobotState.READY then .pass s true ""
      -- Check if the robot is already in the target position and not enough
      -- time has passed since the last tuning.
      else if s.target_reached ∧ ¬is_time_to_tune cfg s now_tune_check
          ∧ force_ok inp then
        .pass s true ""
      else
        -- self.last_tuning_time = time.time()
        let res := fun success warning =>
          { TrackResult.pass s success warning with
            last_tuning_time := now_tune_set }
        -- Check if the displacement to the target is available.
        match s.displacement_to_target with
        | none => res true ""
        | some _ =>
          -- Ensure that the displacement to target has been updated recently.
          if now_fresh > s.last_displacement_update_time + 0.3 then
            { res true "" with displacement_to_target := none }
          -- Move the robot.
          else if !inp.move_decision_success then
            { res false "Error: Could not move the robot" with
              move_decision_called := true }
          else if cfg.use_pressure_sensor ∧ ¬inp.pressure_sensor_ready then
            { res false "Error: Pressure force sensor is not connected." with
              move_decision_called := true }
          else
            { res true "" with
              move_decision_called := true,
              set_state_to_start_moving_called := true }

/-- Concrete configuration for the C5 witness. -/
def c5Config : TrackConfig :=
  { stop_robot_if_head_not_visible := true
    working_space_radius := 800
    tuning_interval := none
    use_pressure_sensor := false }

/-- Concrete per-tick inputs for the C5 witness: the head marker is lost. -/
def c5Inputs : TrackInputs :=
  { head_visible := false
    coil_visible := true
    is_head_moving_too_fast := false
    force_sensor_present := false
    is_force_near_setpoint := false
    move_decision_success := true
    robot_is_error_state := false
    pressure_sensor_ready := false }

/-- Concrete controller state for the C5 witness: target set, derived state
available. -/
def c5State : TrackState :=
  { target_set := true
    head_center := some [0, 0, 0, 0, 0, 0]
    head_pose_in_robot_space := some [0, 0, 100, 0, 0, 0]
    m_tracker_to_robot := some ()
    target_pose_from_displacement := some [0, 0, 0, 0, 0, 0]
    robot_state := RobotState.READY
    last_tuning_time := 0
    target_reached := false
    displacement_to_target := some [1, 0, 0, 0, 0, 0]
    last_displacement_update_time := 0 }

/-- Concrete per-tick inputs for the C7 witness: both markers visible,
head not moving too fast. -/
def c7Inputs : TrackInputs :=
  { head_visible := true
    coil_visible := true
    is_head_moving_too_fast := false
    force_sensor_present := false
    is_force_near_setpoint := false
    move_decision_success := true
    robot_is_error_state := false
    pressure_sensor_ready := false }

/-- Concrete controller state for the C7 witness: same as the C5 state; the
last displacement update was at time 0 and the tick happens at time 1. -/
def c7State : TrackState := c5State

/-! ## Displacement intake (`RobotControl.on_update_displacement_to_target`) -/

/-- The handedness sign reversal performed on ingress:
`displacement[0] = -displacement[0]; displacement[3] = -displacement[3]`. -/
def flip_displacement (d : Pose) : Pose :=
  (d.set 0 (-(d.getD 0 0))).set 3 (-(d.getD 3 0))

/-- The fields of `RobotControl` that `on_update_displacement_to_target` reads
or writes. -/
structure DispState where
  displacement_to_target : Option Pose
  displacement_to_target_history : List Pose
  objective : RobotObjective
  last_displacement_update_time : ℚ
  deriving DecidableEq, Repr

/-- Result of one `on_update_displacement_to_target` call: the state
afterwards and the side effects performed. -/
structure DispOutcome where
  state : DispState
  stop_robot_called : Bool    -- self.stop_robot()
  objective_sent : Bool       -- self.send_objective_to_neuronavigation()
  error_printed : Bool        -- print("ERROR: Same coordinates ...")
  deriving DecidableEq, Repr

/-- `RobotControl.on_update_displacement_to_target`.  The incoming
displacement `d` is sign-flipped on axes x and rx; the flipped value is what
`displacement.copy()` appends to the history.  The coil-to-robot alignment of
the flipped displacement (and, under the `directly_PID` algorithm, the PID
update) produce the value stored in `self.displacement_to_target`; that
real-matrix computation is the parameter `aligned` here (it is verified
separately and does not feed the frozen-feed detector).  The detector itself
is embedded verbatim: append, and when the history holds at least 20 entries,
stop the robot, set the objective to `NONE`, publish it and print the error
when all entries equal the first, then drop the oldest entry. -/
def on_update_displacement_to_target (aligned : Pose) (d : Pose) (now : ℚ)
    (s : DispState) : DispOutcome :=
  let flipped := flip_displacement d
  let s := { s with
    displacement_to_target := some aligned
    last_displacement_update_time := now }
  let history := s.displacement_to_target_history ++ [flipped]
  if 20 ≤ history.length then
    if history.all (fun x => x = history.headD []) then
      { state := { s with
          displacement_to_target_history := history.tail
          objective := RobotObjective.NONE }
        stop_robot_called := true
        objective_sent := true
        error_printed := true }
    else
      { state := { s with displacement_to_target_history := history.tail }
        stop_robot_called := false
        objective_sent := false
        error_printed := false }
  else
    { state := { s with displacement_to_target_history := history }
      stop_robot_called := false
      objective_sent := false
      error_printed := false }

/-- The frozen displacement message of the C6 witness. -/
def c6Frozen : Pose := [1, 0, 0, 0, 0, 0]

/-- Controller state for the C6 witness: the previous 19 received messages
were all equal to `c6Frozen` (stored flipped), the objective is
`TRACK_TARGET`. -/
def c6State : DispState :=
  { displacement_to_target := some [-1, 0, 0, 0, 0, 0]
    displacement_to_target_history := List.replicate 19 (flip_displacement c6Frozen)
    objective := RobotObjective.TRACK_TARGET
    last_displacement_update_time := 0 }

/-! ## Coil-to-robot alignment (`RobotControl.on_coil_to_robot_alignment`)

The alignment works on 4×4 homogeneous matrices over the reals.  The matrix
helpers it calls live in `robot.transformations` and
`robot.control.robot_processing`, which are not under `src/`; they are
modelled from the spec below (each marked `Modelled from the spec:`). -/

/-- 4×4 homogeneous transformation matrices, row-major, over ℝ. -/
abbrev Mat4 := Matrix (Fin 4) (Fin 4) ℝ

/-- The three unit coordinate axes `xaxis, yaxis, zaxis = [1,0,0], [0,1,0],
[0,0,1]` that `on_coil_to_robot_alignment` passes to `tr.rotation_matrix`. -/
inductive Axis3 where
  | x
  | y
  | z
  deriving DecidableEq, Repr

/-- Modelled from the spec: `np.radians` — degrees to radians. -/
noncomputable def radians (deg : ℝ) : ℝ := deg * Real.pi / 180

/-- Modelled from the spec: `np.degrees` — radians to degrees. -/
noncomputable def degrees (rad : ℝ) : ℝ := rad * 180 / Real.pi

/-- Modelled from the spec: `tr.rotation_matrix(angle, axis)` (module
`robot.transformations`, not under `src/`), instantiated at the three unit
coordinate axes used by the caller: the homogeneous rotation about x, y or z
by `angle` radians. -/
noncomputable def rotation_matrix (angle : ℝ) : Axis3 → Mat4
  | .x => !![1, 0, 0, 0;
             0, Real.cos angle, -Real.sin angle, 0;
             0, Real.sin angle, Real.cos angle, 0;
             0, 0, 0, 1]
  | .y => !![Real.cos angle, 0, Real.sin angle, 0;
             0, 1, 0, 0;
             -Real.sin angle, 0, Real.cos angle, 0;
             0, 0, 0, 1]
  | .z => !![Real.cos angle, -Real.sin angle, 0, 0;
             Real.sin angle, Real.cos angle, 0, 0;
             0, 0, 1, 0;
             0, 0, 0, 1]

/-- Modelled from the spec: `tr.translation_matrix(p)` — the homogeneous
translation by `p`. -/
noncomputable def translation_matrix (p : Fin 3 → ℝ) : Mat4 :=
  !![1, 0, 0, p 0;
     0, 1, 0, p 1;
     0, 0, 1, p 2;
     0, 0, 0, 1]

/-- Modelled from the spec: `tr.euler_matrix(a, b, g, axes="sxyz")` —
static-axis XYZ: rotate about x by `a`, then about y by `b`, then about z by
`g`, all in the fixed frame, i.e. `Rz(g)·Ry(b)·Rx(a)` (angles in radians). -/
noncomputable def euler_matrix (a b g : ℝ) : Mat4 :=
  rotation_matrix g Axis3.z * rotation_matrix b Axis3.y * rotation_matrix a Axis3.x

/-- `math.atan2(y, x)`: the angle of the point `(x, y)`, in `(-π, π]`. -/
noncomputable def atan2 (y x : ℝ) : ℝ :=
  if 0 < x then Real.arctan (y / x)
  else if x < 0 then
    (if 0 ≤ y then Real.arctan (y / x) + Real.pi
     else Real.arctan (y / x) - Real.pi)
  else
    (if 0 < y then Real.pi / 2
     else if y < 0 then -(Real.pi / 2)
     else 0)

/-- Modelled from the spec: `tr.euler_from_matrix(M, axes="sxyz")` — the
canonical Euler decomposition (radians) of the rotation part:
`cy = sqrt(M₀₀² + M₁₀²)`; in the regular branch
`(atan2(M₂₁, M₂₂), atan2(-M₂₀, cy), atan2(M₁₀, M₀₀))`, in the singular branch
`(atan2(-M₁₂, M₁₁), atan2(-M₂₀, cy), 0)`.  The float implementation's tiny
`_EPS` threshold on `cy` is modelled as exact zero. -/
noncomputable def euler_from_matrix (M : Mat4) : Fin 3 → ℝ :=
  let cy := Real.sqrt (M 0 0 ^ 2 + M 1 0 ^ 2)
  if 0 < cy then
    ![atan2 (M 2 1) (M 2 2), atan2 (-(M 2 0)) cy, atan2 (M 1 0) (M 0 0)]
  else
    ![atan2 (-(M 1 2)) (M 1 1), atan2 (-(M 2 0)) cy, 0]

/-- Modelled from the spec:
`robot_process.coordinates_to_transformation_matrix(position, orientation,
axes="sxyz")` — position in mm, orientation in degrees; builds `T·R` (rotation
first, then translation). -/
noncomputable def coordinates_to_transformation_matrix (position orientation : Fin 3 → ℝ) :
    Mat4 :=
  translation_matrix position *
    euler_matrix (radians (orientation 0)) (radians (orientation 1))
      (radians (orientation 2))

/-- Modelled from the spec:
`robot_process.transformation_matrix_to_coordinates(M, axes="sxyz")` — the
translation column and the Euler angles converted to degrees. -/
noncomputable def transformation_matrix_to_coordinates (M : Mat4) :
    (Fin 3 → ℝ) × (Fin 3 → ℝ) :=
  (![M 0 3, M 1 3, M 2 3], fun i => degrees (euler_from_matrix M i))

/-- `RobotControl.on_coil_to_robot_alignment` from
`src/robot/control/robot_control.py`:

    Rx = tr.rotation_matrix(np.radians(rx_offset), xaxis)
    Ry = tr.rotation_matrix(np.radians(ry_offset), yaxis)
    Rz = tr.rotation_matrix(np.radians(rz_offset), zaxis)
    rotation_alignment_matrix = tr.multiply_matrices(Rx, Ry, Rz)
    m_offset = robot_process.coordinates_to_transformation_matrix(
        position=displacement[:3], orientation=displacement[3:], axes="sxyz")
    displacement_matrix = (np.linalg.inv(rotation_alignment_matrix)
        @ m_offset @ rotation_alignment_matrix)
    return robot_process.transformation_matrix_to_coordinates(
        displacement_matrix, axes="sxyz")

The offsets come from `site_config` (degrees); `displacement` is the
6-component vector, `[:3]` and `[3:]` are taken with `Fin.castAdd`/
`Fin.natAdd`. -/
noncomputable def on_coil_to_robot_alignment (rx_offset ry_offset rz_offset : ℝ)
    (displacement : Fin 6 → ℝ) : (Fin 3 → ℝ) × (Fin 3 → ℝ) :=
  let Rx := rotation_matrix (radians rx_offset) Axis3.x
  let Ry := rotation_matrix (radians ry_offset) Axis3.y
  let Rz := rotation_matrix (radians rz_offset) Axis3.z
  let rotation_alignment_matrix := Rx * Ry * Rz
  let m_offset := coordinates_to_transformation_matrix
    (fun i => displacement (Fin.castAdd 3 i))
    (fun i => displacement (Fin.natAdd 3 i))
  let displacement_matrix :=
    rotation_alignment_matrix⁻¹ * m_offset * rotation_alignment_matrix
  transformation_matrix_to_coordinates displacement_matrix

/-- The C8 counterexample input: the 6-component displacement
`(0, 0, 0, 360, 0, 0)` — a full turn about x. -/
noncomputable def c8Displacement : Fin 6 → ℝ := ![0, 0, 0, 360, 0, 0]

end TmsRobot

open TmsRobot in
/-- C3, counterexample.  The claim says no operation among `update`,
`set_state_to_start_moving`, `set_state_to_stopping` moves the machine out of
`WAITING` before `waiting_start + dwell_time`; but `set_state_to_stopping`,
applied in `WAITING` with `dwell_time = 1` at elapsed time `0 < 1`,
unconditionally yields `STOPPING`. -/
theorem c3_counterexample :
    c3State.state = RobotState.WAITING ∧
    (0 : ℚ) < c3State.waiting_start_time + c3State.dwell_time ∧
    (StateOp.set_state_to_stopping.apply 0 c3State).state ≠ RobotState.WAITING := by
  refine ⟨rfl, by norm_num [c3State], ?_⟩
  decide

open TmsRobot in
/-- C3, amended.  Before `waiting_start + dwell_time` has elapsed:
`update` keeps the state `WAITING` (for any pattern of `is_moving` answers and
any earlier timestamp `now1`); `set_state_to_stopping` always moves it to
`STOPPING`; and `set_state_to_start_moving` moves it to `START_MOVING` when
`dwell_time ≠ 0`, while for `dwell_time = 0` it is a no-op. -/
theorem c3_amended (s : StateController) (hW : s.state = RobotState.WAITING)
    (m1 m2 m3 : Bool) (now1 now : ℚ)
    (hT : now < s.waiting_start_time + s.dwell_time) :
    (s.update m1 m2 m3 now1 now).state = RobotState.WAITING ∧
    s.set_state_to_stopping.state = RobotState.STOPPING ∧
    (s.dwell_time ≠ 0 →
      s.set_state_to_start_moving.state = RobotState.START_MOVING) ∧
    (s.dwell_time = 0 → s.set_state_to_start_moving = s) := by
  refine ⟨?_, rfl, fun h => by simp [StateController.set_state_to_start_moving, h], fun h => by simp [StateController.set_state_to_start_moving, h]⟩
  have hle : ¬ (s.dwell_time - (now - s.waiting_start_time) ≤ 0) := by linarith
  simp [StateController.update, hW, hle]

open TmsRobot in
/-- C3, witness for the amended theorem at a concrete state: `WAITING`,
`dwell_time = 1`, `waiting_start_time = 0`, observed at `now = 0`. -/
theorem c3_amended_witness :
    (c3State.update true false true 0 0).state = RobotState.WAITING ∧
    c3State.set_state_to_stopping.state = RobotState.STOPPING ∧
    (c3State.dwell_time ≠ 0 →
      c3State.set_state_to_start_moving.state = RobotState.START_MOVING) ∧
    (c3State.dwell_time = 0 → c3State.set_state_to_start_moving = c3State) :=
  c3_amended c3State rfl true false true 0 0 (by norm_num [c3State])

open TmsRobot in
/-- C1, code bug, evaluated at the failing input.  With the Elfin driver,
`Elfin.stop_robot` returns Python `None` (its body has no `return`), although
it does sleep the documented 50 ms.  Consequently `RobotControl.stop_robot`
takes the failure branch: the state machine is NOT transitioned to `STOPPING`
(here it stays `READY`), and the value returned to the caller is `None`, not a
boolean — contradicting the driver interface contract `stop_robot() → bool`
and the spec's description of `stop_robot()`. -/
theorem c1_elfin_stop_robot_bug :
    Elfin.stop_robot.sleep_seconds = 0.05 ∧
    (RobotControl.stop_robot Elfin.stop_robot c1ReadyController).state_controller.state
      ≠ RobotState.STOPPING ∧
    (RobotControl.stop_robot Elfin.stop_robot c1ReadyController).state_controller
      = c1ReadyController ∧
    (RobotControl.stop_robot Elfin.stop_robot c1ReadyController).returned = none := by
  refine ⟨rfl, by decide, rfl, rfl⟩

open TmsRobot in
/-- C2, counterexample.  The claim says a warning unchanged from the previous
tick is not sent.  But with a remote-control sink attached and the previously
stored warning `"W"`, forwarding the identical warning `"W"` again DOES send a
message: the source's guard is `self.last_warning != ""`, not a comparison
with the incoming warning. -/
theorem c2_counterexample :
    (send_warning_to_neuronavigation ⟨true, "W"⟩ "W").2 = some "W" := by
  decide

open TmsRobot in
/-- C2, amended.  A warning message is sent iff a remote-control sink is
attached and the *previously stored* warning is non-empty — independently of
whether the warning changed; when a message is sent it carries the current
warning; and the stored warning is unconditionally overwritten with the
current one. -/
theorem c2_amended (s : WarningSink) (w : String) :
    ((send_warning_to_neuronavigation s w).2 ≠ none ↔
      s.remote_control = true ∧ s.last_warning ≠ "") ∧
    ((send_warning_to_neuronavigation s w).2 = none ∨
      (send_warning_to_neuronavigation s w).2 = some w) ∧
    (send_warning_to_neuronavigation s w).1.last_warning = w := by
  unfold send_warning_to_neuronavigation
  by_cases h : s.remote_control ∧ s.last_warning ≠ "" <;> simp [h]

open TmsRobot in
/-- C4, confirmed.  `set_safe_height` does not depend on the head pose (the
`head_z + 150` value is computed and discarded); with a stored robot Z it
returns the maximum of the user-configured safe height and that Z; and with
robot Z `None` it returns the user-configured safe height. -/
theorem c4_set_safe_height (u h₁ h₂ z : ℚ) (r : Option ℚ) :
    set_safe_height u h₁ r = set_safe_height u h₂ r ∧
    set_safe_height u h₁ (some z) = max u z ∧
    set_safe_height u h₁ none = u := by
  refine ⟨by cases r <;> rfl, ?_, rfl⟩
  unfold set_safe_height
  rcases lt_or_le z u with h | h
  · simp [h, max_eq_left h.le]
  · simp [not_lt.mpr h, max_eq_right h]

open TmsRobot in
/-- C9, confirmed.  When the estimation raises a linear-algebra error
(singular system), `on_robot_matrix_estimation` reports the recoverable error
and leaves both stored matrix triples exactly as they were before the call,
publishing nothing. -/
theorem c9_singular_keeps_matrices (e : LinAlgError) (s : CalibState) :
    (on_robot_matrix_estimation (.error e) s).state.matrix_tracker_to_robot
      = s.matrix_tracker_to_robot ∧
    (on_robot_matrix_estimation (.error e) s).state.tracker_m_tracker_to_robot
      = s.tracker_m_tracker_to_robot ∧
    (on_robot_matrix_estimation (.error e) s).error_reported = true ∧
    (on_robot_matrix_estimation (.error e) s).matrix_published = false :=
  ⟨rfl, rfl, rfl, rfl⟩

open TmsRobot in
/-- C10, confirmed.  When no robot connection has been established
(`self.robot` is `None`), `on_set_target` returns with the controller state
untouched — in particular `target_set` and `m_target_to_head` keep their prior
values — and performs neither a movement-algorithm reset nor a PID clear. -/
theorem c10_set_target_without_robot (computed : Option (List (List ℚ)))
    (directly_PID : Bool) (s : TargetState) :
    on_set_target computed directly_PID { s with robot := none } =
      ({ s with robot := none },
       { algorithm_reset := false, pid_cleared := false }) := by
  simp [on_set_target]

open TmsRobot in
/-- C5, confirmed.  With the objective dispatching to
`handle_objective_track_target`, a target set, the derived state available,
`stop_robot_if_head_not_visible` enabled, and the head or the coil marker not
visible, the call stops the robot, resets the movement algorithm, and returns
`(True, "Warning: Head or coil marker is not visible")` without invoking the
movement algorithm. -/
theorem c5_head_not_visible (cfg : TrackConfig) (inp : TrackInputs)
    (s : TrackState) (now1 now2 now3 : ℚ)
    (htarget : s.target_set = true)
    (hcenter : s.head_center ≠ none)
    (hhead : s.head_pose_in_robot_space ≠ none)
    (htracker : s.m_tracker_to_robot ≠ none)
    (hstop : cfg.stop_robot_if_head_not_visible = true)
    (hvis : inp.head_visible = false ∨ inp.coil_visible = false) :
    handle_objective_track_target cfg inp s now1 now2 now3 =
      { TrackResult.pass s true "Warning: Head or coil marker is not visible" with
        stop_robot_called := true, algorithm_reset := true } := by
  rcases hvis with h | h <;>
    simp [handle_objective_track_target, htarget, hcenter, hhead, htracker,
      hstop, h]

open TmsRobot in
/-- C5, witness: the theorem applied at the concrete configuration, inputs and
state above. -/
theorem c5_head_not_visible_witness :
    handle_objective_track_target c5Config c5Inputs c5State 0 0 0 =
      { TrackResult.pass c5State true
          "Warning: Head or coil marker is not visible" with
        stop_robot_called := true, algorithm_reset := true } :=
  c5_head_not_visible c5Config c5Inputs c5State 0 0 0 rfl (by decide)
    (by decide) (by decide) rfl (Or.inl rfl)

open TmsRobot in
/-- C7, confirmed.  In a track-target tick where all earlier guards pass
(target set, derived state available, both markers visible, head not moving
too fast, displacement-estimated target inside the working sphere, state
machine `READY`, not in the holding case), if the last displacement update is
older than 0.3 s then no motion command is issued — `move_decision` is not
called and `set_state_to_start_moving` is not called — and the stored
`displacement_to_target` ends up `None`. -/
theorem c7_stale_displacement (cfg : TrackConfig) (inp : TrackInputs)
    (s : TrackState) (target : Pose) (now1 now2 now3 : ℚ)
    (htarget : s.target_set = true)
    (hcenter : s.head_center ≠ none)
    (hhead : s.head_pose_in_robot_space ≠ none)
    (htracker : s.m_tracker_to_robot ≠ none)
    (hv1 : inp.head_visible = true) (hv2 : inp.coil_visible = true)
    (hfast : inp.is_head_moving_too_fast = false)
    (hdisp : s.target_pose_from_displacement = some target)
    (hsphere : norm3_ge target cfg.working_space_radius = false)
    (hready : s.robot_state = RobotState.READY)
    (hhold : ¬(s.target_reached = true ∧ is_time_to_tune cfg s now1 = false
      ∧ force_ok inp = true))
    (hstale : now3 > s.last_displacement_update_time + 0.3) :
    (handle_objective_track_target cfg inp s now1 now2 now3).move_decision_called
      = false ∧
    (handle_objective_track_target cfg inp s now1 now2 now3).set_state_to_start_moving_called
      = false ∧
    (handle_objective_track_target cfg inp s now1 now2 now3).displacement_to_target
      = none ∧
    (handle_objective_track_target cfg inp s now1 now2 now3).success = true ∧
    (handle_objective_track_target cfg inp s now1 now2 now3).warning = "" := by
  cases hd : s.displacement_to_target with
  | none =>
      simp [handle_objective_track_target, htarget, hcenter, hhead, htracker,
        hv1, hv2, hfast, hdisp, hsphere, hready, hhold, hd, TrackResult.pass]
  | some d =>
      simp [handle_objective_track_target, htarget, hcenter, hhead, htracker,
        hv1, hv2, hfast, hdisp, hsphere, hready, hhold, hd, hstale,
        TrackResult.pass]

open TmsRobot in
/-- C7, witness: the theorem applied at the concrete configuration, inputs and
state above, with the freshness clock at `1 > 0 + 0.3`. -/
theorem c7_stale_displacement_witness :
    (handle_objective_track_target c5Config c7Inputs c7State 1 1 1).move_decision_called
      = false ∧
    (handle_objective_track_target c5Config c7Inputs c7State 1 1 1).set_state_to_start_moving_called
      = false ∧
    (handle_objective_track_target c5Config c7Inputs c7State 1 1 1).displacement_to_target
      = none ∧
    (handle_objective_track_target c5Config c7Inputs c7State 1 1 1).success = true ∧
    (handle_objective_track_target c5Config c7Inputs c7State 1 1 1).warning = "" :=
  c7_stale_displacement c5Config c7Inputs c7State [0, 0, 0, 0, 0, 0] 1 1 1
    rfl (by decide) (by decide) (by decide) rfl rfl rfl rfl
    (by norm_num [norm3_ge, c5Config, c7State, c5State]) rfl
    (by decide) (by norm_num [c7State, c5State])

open TmsRobot in
/-- C6, confirmed.  When, after the incoming message is appended, the history
of received (sign-flipped) displacements holds at least 20 entries and they
are all exactly equal — i.e. the last 20 displacement messages received are
exactly equal — `on_update_displacement_to_target` stops the robot, sets the
objective to `NONE`, publishes the new objective to neuronavigation, and
prints the error. -/
theorem c6_frozen_feed (aligned d : Pose) (now : ℚ) (s : DispState)
    (hlen : 20 ≤ (s.displacement_to_target_history ++ [flip_displacement d]).length)
    (heq : ∀ x ∈ s.displacement_to_target_history ++ [flip_displacement d],
      x = (s.displacement_to_target_history ++ [flip_displacement d]).headD []) :
    (on_update_displacement_to_target aligned d now s).stop_robot_called = true ∧
    (on_update_displacement_to_target aligned d now s).state.objective
      = RobotObjective.NONE ∧
    (on_update_displacement_to_target aligned d now s).objective_sent = true ∧
    (on_update_displacement_to_target aligned d now s).error_printed = true := by
  have hall : ((s.displacement_to_target_history ++ [flip_displacement d]).all
      (fun x => x = (s.displacement_to_target_history
        ++ [flip_displacement d]).headD [])) = true := by
    rw [List.all_eq_true]
    intro x hx
    exact decide_eq_true (heq x hx)
  simp only [on_update_displacement_to_target]
  rw [if_pos hlen, if_pos hall]
  exact ⟨rfl, rfl, rfl, rfl⟩

open TmsRobot in
/-- C6, witness: the theorem applied when the 20th copy of the same message
arrives. -/
theorem c6_frozen_feed_witness :
    (on_update_displacement_to_target [-1, 0, 0, 0, 0, 0] c6Frozen 1 c6State).stop_robot_called
      = true ∧
    (on_update_displacement_to_target [-1, 0, 0, 0, 0, 0] c6Frozen 1 c6State).state.objective
      = RobotObjective.NONE ∧
    (on_update_displacement_to_target [-1, 0, 0, 0, 0, 0] c6Frozen 1 c6State).objective_sent
      = true ∧
    (on_update_displacement_to_target [-1, 0, 0, 0, 0, 0] c6Frozen 1 c6State).error_printed
      = true :=
  c6_frozen_feed [-1, 0, 0, 0, 0, 0] c6Frozen 1 c6State
    (by simp [c6State])
    (by
      intro x hx
      simp only [c6State] at hx ⊢
      rw [show (List.replicate 19 (flip_displacement c6Frozen)
          ++ [flip_displacement c6Frozen]).headD [] = flip_displacement c6Frozen
        from rfl]
      rcases List.mem_append.mp hx with h | h
      · exact List.eq_of_mem_replicate h
      · simpa using h)

open TmsRobot in
/-- `np.radians(0) = 0`. -/
theorem radians_zero : radians 0 = 0 := by
  simp [radians]

open TmsRobot in
/-- `np.radians(360) = 2π`. -/
theorem radians_360 : radians 360 = 2 * Real.pi := by
  unfold radians; ring

open TmsRobot in
/-- A rotation by angle 0 about any coordinate axis is the identity. -/
theorem rotation_matrix_zero (ax : Axis3) : rotation_matrix 0 ax = 1 := by
  cases ax <;>
    · ext i j
      fin_cases i <;> fin_cases j <;>
        simp [rotation_matrix, Matrix.one_apply, Matrix.vecHead,
          Matrix.vecTail, Function.comp]

open TmsRobot in
/-- A rotation by 2π about the x axis is the identity. -/
theorem rotation_matrix_x_two_pi :
    rotation_matrix (2 * Real.pi) Axis3.x = 1 := by
  ext i j
  fin_cases i <;> fin_cases j <;>
    simp [rotation_matrix, Matrix.one_apply, Real.cos_two_pi, Real.sin_two_pi,
      Matrix.vecHead, Matrix.vecTail, Function.comp]

open TmsRobot in
/-- C8, amended.  When `rx_offset = ry_offset = rz_offset = 0`, the alignment
rotation is the identity matrix, so `on_coil_to_robot_alignment` leaves the
displacement's homogeneous matrix unchanged: its output is exactly the
translation/Euler decomposition of the matrix built from the input
displacement.  (The decomposition returns the canonical Euler representation,
so the output equals the input only up to Euler-angle equivalence — see the
counterexample at `rx = 360°`.) -/
theorem c8_alignment_zero_offsets (displacement : Fin 6 → ℝ) :
    on_coil_to_robot_alignment 0 0 0 displacement =
      transformation_matrix_to_coordinates
        (coordinates_to_transformation_matrix
          (fun i => displacement (Fin.castAdd 3 i))
          (fun i => displacement (Fin.natAdd 3 i))) := by
  unfold on_coil_to_robot_alignment
  rw [radians_zero, rotation_matrix_zero, rotation_matrix_zero,
    rotation_matrix_zero]
  simp [inv_one]

open TmsRobot in
/-- C8, counterexample.  The claim says that with zero offsets the returned
Euler angles equal the input displacement's Euler angles for every
displacement.  At the displacement `(0, 0, 0, 360, 0, 0)` the built rotation
matrix is the identity (a full turn about x), whose canonical Euler
decomposition is `0`, so the returned rx is `0 ≠ 360`. -/
theorem c8_counterexample :
    (on_coil_to_robot_alignment 0 0 0 c8Displacement).2 0 ≠ c8Displacement 3 := by
  have hpos : (fun i => c8Displacement (Fin.castAdd 3 i)) = ![(0 : ℝ), 0, 0] := by
    funext i; fin_cases i <;> rfl
  have horient : (fun i => c8Displacement (Fin.natAdd 3 i)) = ![(360 : ℝ), 0, 0] := by
    funext i; fin_cases i <;> rfl
  have hT : translation_matrix ![(0 : ℝ), 0, 0] = 1 := by
    ext i j
    fin_cases i <;> fin_cases j <;>
      simp [translation_matrix, Matrix.one_apply, Matrix.vecHead,
        Matrix.vecTail, Function.comp]
  have hE : euler_matrix (radians 360) (radians 0) (radians 0) = 1 := by
    rw [euler_matrix, radians_zero, radians_360, rotation_matrix_zero,
      rotation_matrix_zero, rotation_matrix_x_two_pi]
    simp
  have hM : coordinates_to_transformation_matrix ![(0 : ℝ), 0, 0]
      ![(360 : ℝ), 0, 0] = 1 := by
    unfold coordinates_to_transformation_matrix
    have h0 : (![(360 : ℝ), 0, 0] : Fin 3 → ℝ) 0 = 360 := rfl
    have h1 : (![(360 : ℝ), 0, 0] : Fin 3 → ℝ) 1 = 0 := rfl
    have h2 : (![(360 : ℝ), 0, 0] : Fin 3 → ℝ) 2 = 0 := rfl
    rw [h0, h1, h2, hT, hE, one_mul]
  have hatan : atan2 0 1 = 0 := by
    unfold atan2
    norm_num
  have h00 : (1 : Mat4) 0 0 = 1 := Matrix.one_apply_eq 0
  have h10 : (1 : Mat4) 1 0 = 0 := by
    rw [Matrix.one_apply_ne]; decide
  have h21 : (1 : Mat4) 2 1 = 0 := by
    rw [Matrix.one_apply_ne]; decide
  have h22 : (1 : Mat4) 2 2 = 1 := Matrix.one_apply_eq 2
  have hcy : Real.sqrt ((1 : Mat4) 0 0 ^ 2 + (1 : Mat4) 1 0 ^ 2) = 1 := by
    rw [h00, h10]; norm_num
  have hE1 : euler_from_matrix (1 : Mat4) 0 = 0 := by
    simp only [euler_from_matrix]
    rw [hcy, if_pos (by norm_num : (0 : ℝ) < 1)]
    simp [h21, h22, hatan]
  have hval : (on_coil_to_robot_alignment 0 0 0 c8Displacement).2 0 = 0 := by
    unfold on_coil_to_robot_alignment
    rw [radians_zero, rotation_matrix_zero, rotation_matrix_zero,
      rotation_matrix_zero]
    rw [hpos, horient, hM]
    simp only [inv_one, one_mul, mul_one]
    unfold transformation_matrix_to_coordinates
    show degrees (euler_from_matrix 1 0) = 0
    rw [hE1]
    simp [degrees]
  rw [hval]
  have h3 : c8Displacement 3 = 360 := rfl
  rw [h3]
  norm_num
